import Mathlib

/-!
Verification development for a Go service that writes orders into a
throughput-limited Cassandra-API store (`src/main.go`), together with the
retry/backoff decision engine described by its specification.

Part 1 embeds the handler code of `src/main.go` (the `Add` HTTP handler,
its error-to-status mapping, and the `OrderInsertErrorLogger` observer).
Part 2 models, from the specification, the retry policy and attempt loop
that live outside `src/` (in the referenced retry extension and the gocql
driver): error kinds, the retry decision function, and the write
orchestrator's attempt loop.
-/

namespace Handler

/-- Models Go `strings.Contains s sub`: `sub` occurs as a contiguous
substring of `s`.  The needles used by the handler are ASCII, so the
character-level infix test agrees with Go's byte-level one. -/
def stringContains (s sub : String) : Bool :=
  decide (sub.toList <:+: s.toList)

/-- HTTP status constants used by the handler (net/http). -/
def statusOK : Nat := 200

def statusTooManyRequests : Nat := 429

def statusRequestTimeout : Nat := 408

def statusInternalServerError : Nat := 500

/-- The three outcomes the handler's status mapping distinguishes on a raw
error string (src/main.go lines 120-127). -/
inductive RespKind where
  | Throttled
  | Timeout
  | Other
deriving DecidableEq, Repr

/-- The classification implicit in `Add` (src/main.go lines 123-127): the
rate-limit needle is tested first, the timeout needle second, and
everything else falls through. -/
def classify (e : String) : RespKind :=
  if stringContains e "TooManyRequests (429)" then RespKind.Throttled
  else if stringContains e "timeout" then RespKind.Timeout
  else RespKind.Other

/-- The HTTP status `Add` produces (src/main.go lines 118-133).  `none`
is the success path: the handler writes no explicit status, so net/http
sends 200. -/
def respStatus (err : Option String) : Nat :=
  match err with
  | none => statusOK
  | some e =>
    if stringContains e "TooManyRequests (429)" then statusTooManyRequests
    else if stringContains e "timeout" then statusRequestTimeout
    else statusInternalServerError

/-- Constant from src/main.go line 111. -/
def fixedLocation : String := "Seattle"

/-- Models Go `math/rand.Intn n` for `n > 0` by its contract: a value in
`[0, n)`, here obtained from an arbitrary generator draw `r`. -/
def Intn (n : Nat) (r : Nat) : Nat := r % n

/-- The values `Add` binds into the insert statement
(src/main.go line 118): generated id, `rand.Intn(200)+50`, the fixed
location, and the current time. -/
structure BoundValues where
  id : String
  amount : Nat
  state : String
  time : Nat
deriving DecidableEq, Repr

def addBindValues (rid : String) (r : Nat) (now : Nat) : BoundValues :=
  { id := rid, amount := Intn 200 r + 50, state := fixedLocation, time := now }

/-- src/main.go lines 136-138: the observer attached to the insert query,
keyed by the order id. -/
structure OrderInsertErrorLogger where
  orderID : String
deriving DecidableEq, Repr

/-- The per-attempt data gocql hands to an observer: the attempt's error
(`nil` on success) and the attempt number. -/
structure ObservedQuery where
  err : Option String
  attempt : Nat
deriving DecidableEq, Repr

/-- The first log line of `ObserveQuery`
(`log.Printf "Query error for order ID %s\n%v"`, src/main.go line 144). -/
def errLine (orderID : String) (e : String) : String :=
  "Query error for order ID " ++ orderID ++ "\n" ++ e

/-- The retry note of `ObserveQuery`
(`log.Printf "Order %s is being retried. attempt #%v"`,
src/main.go line 146). -/
def retryNote (orderID : String) (attempt : Nat) : String :=
  "Order " ++ orderID ++ " is being retried. attempt #" ++ toString attempt

/-- Embedding of `OrderInsertErrorLogger.ObserveQuery`
(src/main.go lines 141-149), returning the list of log lines it emits:  nothing on success; on failure
the error line, plus the retry note when the attempt number is
positive. -/
def ObserveQuery (l : OrderInsertErrorLogger) (oq : ObservedQuery) : List String :=
  match oq.err with
  | none => []
  | some e =>
    if oq.attempt > 0 then [errLine l.orderID e, retryNote l.orderID oq.attempt]
    else [errLine l.orderID e]

/-- The externally visible effects of one call to `Add`
(src/main.go lines 114-133). -/
structure AddResult where
  bound : BoundValues
  observer : OrderInsertErrorLogger
  status : Nat
deriving DecidableEq, Repr

/-- Embedding of `Add` (src/main.go lines 114-133), with its environment made
explicit: `uuidRes` is the pair returned by `uuid.GenerateUUID()` (value,
error; the code discards the error with `rid, _ := ...`), `r` the random
draw, `now` the clock reading, and `queryErr` the outcome of the insert. -/
def Add (uuidRes : String × Option String) (r : Nat) (now : Nat)
    (queryErr : Option String) : AddResult :=
  let rid := uuidRes.1
  { bound := addBindValues rid r now
    observer := { orderID := rid }
    status := respStatus queryErr }

end Handler

namespace Handler

/-- Embedding of the retry-policy configuration step of `init`
(src/main.go lines 67-78): it decides which retry policy the session
gets.  `MAX_RETRIES` is abstracted as its parsed integer value (`none` =
unset or empty, in which case the code substitutes "5"; an unparsable
value makes the process exit and is not modelled).  When the feature flag
is off no retry policy is installed at all; otherwise the value is the
one passed to `retry.NewCosmosRetryPolicy`. -/
def initRetryConfig (useRetryPolicy : Bool) (maxRetriesEnv : Option Int) : Option Int :=
  if useRetryPolicy then some (maxRetriesEnv.getD 5)
  else none

end Handler

namespace Core

/-- Modelled from the spec (§3 ErrorKind): the closed enumeration of
semantic error kinds produced by the Error Classifier of the retry
extension, which is outside `src/`.  `Throttled` may carry a
server-suggested retry-after duration. -/
inductive ErrorKind where
  | Throttled (retryAfter : Option Nat)
  | Timeout
  | Unavailable
  | Other
deriving DecidableEq, Repr

/-- Modelled from the spec (§3 Operation): correlation identifier and
idempotency flag; the payload is irrelevant to the decision engine. -/
structure Operation where
  correlationId : String
  idempotent : Bool
deriving DecidableEq, Repr

/-- Modelled from the spec (§3 RetryDecision). -/
structure RetryDecision where
  shouldRetry : Bool
  delay : Int
deriving DecidableEq, Repr

/-- Modelled from the spec (§3 PolicyConfig, §4.2): `maxRetries` plus the
tunable backoff base and ceiling the spec leaves open. -/
structure PolicyConfig where
  maxRetries : Nat
  baseDelay : Nat
  maxDelay : Nat
deriving DecidableEq, Repr

/-- Modelled from the spec (§4.2): exponential backoff
`base * 2^attemptIndex` capped at the ceiling, plus a jitter draw reduced
into `[0, base)`. -/
def backoff (cfg : PolicyConfig) (attemptIndex : Nat) (jitter : Nat) : Int :=
  ((min (cfg.baseDelay * 2 ^ attemptIndex) cfg.maxDelay) + jitter % cfg.baseDelay : Nat)

/-- Modelled from the spec (§4.2 Retry Policy), which describes the retry
extension outside `src/`: hard stop once `attemptIndex >= maxRetries`;
`Throttled` always retries (server hint taking priority over backoff);
`Timeout` retries only for idempotent operations; `Unavailable` retries;
`Other` never retries. -/
def decide (cfg : PolicyConfig) (kind : ErrorKind) (attemptIndex : Nat)
    (op : Operation) (jitter : Nat) : RetryDecision :=
  if cfg.maxRetries ≤ attemptIndex then { shouldRetry := false, delay := 0 }
  else
    match kind with
    | ErrorKind.Throttled retryAfter =>
        { shouldRetry := true
          delay := match retryAfter with
            | some d => (d : Int)
            | none => backoff cfg attemptIndex jitter }
    | ErrorKind.Timeout =>
        if op.idempotent then { shouldRetry := true, delay := backoff cfg attemptIndex jitter }
        else { shouldRetry := false, delay := 0 }
    | ErrorKind.Unavailable =>
        { shouldRetry := true, delay := backoff cfg attemptIndex jitter }
    | ErrorKind.Other => { shouldRetry := false, delay := 0 }

/-- Modelled from the spec (§4.4): the outcome of one attempt. -/
inductive Outcome where
  | success
  | failure (kind : ErrorKind)
deriving DecidableEq, Repr

/-- Modelled from the spec (§7, §8): the terminal error carries the kind
and the number of attempts made. -/
structure TerminalError where
  kind : ErrorKind
  attemptsMade : Nat
deriving DecidableEq, Repr

/-- Modelled from the spec (§4.4): result of `execute`. -/
inductive ExecResult where
  | ok (attemptsMade : Nat)
  | err (t : TerminalError)
deriving DecidableEq, Repr

/-- Modelled from the spec (§4.3): one invocation of the Attempt
Observer: correlation id, attempt index, and the attempt's outcome. -/
structure ObserverCall where
  correlationId : String
  attemptIndex : Nat
  outcome : Outcome
deriving DecidableEq, Repr

/-- Modelled from the spec (§4.4 Write Orchestrator): the attempt loop
from attempt `idx` with `fuel` further retries available.  `outcomes i`
is what the backend does on attempt `i`, `jitters i` the jitter draw for
attempt `i`; `policy = none` is the disabled feature flag.  Returns the
terminal result and the observer invocations in order.  `decide` only
allows a retry while `idx < maxRetries`, so `fuel = maxRetries` at entry
makes the `fuel = 0` fallback unreachable. -/
def runLoop (policy : Option PolicyConfig) (op : Operation)
    (outcomes : Nat → Outcome) (jitters : Nat → Nat)
    (idx : Nat) (fuel : Nat) : ExecResult × List ObserverCall :=
  let outcome := outcomes idx
  let call : ObserverCall :=
    { correlationId := op.correlationId, attemptIndex := idx, outcome := outcome }
  match outcome with
  | Outcome.success => (ExecResult.ok (idx + 1), [call])
  | Outcome.failure kind =>
    match policy with
    | none => (ExecResult.err { kind := kind, attemptsMade := idx + 1 }, [call])
    | some cfg =>
      let d := decide cfg kind idx op (jitters idx)
      if d.shouldRetry then
        match fuel with
        | 0 => (ExecResult.err { kind := kind, attemptsMade := idx + 1 }, [call])
        | fuel' + 1 =>
          let rest := runLoop policy op outcomes jitters (idx + 1) fuel'
          (rest.1, call :: rest.2)
      else (ExecResult.err { kind := kind, attemptsMade := idx + 1 }, [call])

/-- Modelled from the spec (§4.4): `execute` starts at attempt 0; when
the policy is enabled, at most `maxRetries` retries can happen. -/
def execute (policy : Option PolicyConfig) (op : Operation)
    (outcomes : Nat → Outcome) (jitters : Nat → Nat) : ExecResult × List ObserverCall :=
  runLoop policy op outcomes jitters 0 (match policy with
    | none => 0
    | some cfg => cfg.maxRetries)

end Core

/-- C2: For every terminal error surfaced by the write handler, the HTTP
status is 429 when the error is classified as throttled, 408 when it is
classified as a timeout, and 500 otherwise; a successful write returns a
2xx status. -/
theorem add_status_follows_classification :
    (∀ e : String,
      Handler.respStatus (some e) =
        match Handler.classify e with
        | Handler.RespKind.Throttled => 429
        | Handler.RespKind.Timeout => 408
        | Handler.RespKind.Other => 500)
    ∧ 200 ≤ Handler.respStatus none ∧ Handler.respStatus none < 300 := by
  refine ⟨fun e => ?_, ?_, ?_⟩
  · unfold Handler.respStatus Handler.classify
    cases h1 : Handler.stringContains e "TooManyRequests (429)" <;>
      cases h2 : Handler.stringContains e "timeout" <;>
        simp [h1, h2, Handler.statusTooManyRequests, Handler.statusRequestTimeout,
          Handler.statusInternalServerError]
  · simp [Handler.respStatus, Handler.statusOK]
  · simp [Handler.respStatus, Handler.statusOK]

/-- C6: classification tests the rate-limit rule first, so a raw error
whose text carries both the rate-limit marker and a timeout marker is
classified as throttled and answered with 429, not 408. -/
theorem rate_limit_rule_beats_timeout_rule (e : String)
    (h1 : Handler.stringContains e "TooManyRequests (429)" = true)
    (h2 : Handler.stringContains e "timeout" = true) :
    Handler.classify e = Handler.RespKind.Throttled
      ∧ Handler.respStatus (some e) = 429 := by
  constructor
  · unfold Handler.classify
    simp [h1]
  · unfold Handler.respStatus
    simp [h1, Handler.statusTooManyRequests]

/-- C6 witness: a concrete error text containing both markers is answered
with 429. -/
theorem rate_limit_rule_beats_timeout_rule_witness :
    Handler.classify "read: TooManyRequests (429) after timeout" = Handler.RespKind.Throttled
      ∧ Handler.respStatus (some "read: TooManyRequests (429) after timeout") = 429 :=
  rate_limit_rule_beats_timeout_rule "read: TooManyRequests (429) after timeout"
    (by decide) (by decide)

/-- C7: classification is total — every raw error yields exactly one
kind — and an error matching neither the rate-limit rule nor the timeout
rule falls through to Other, surfaced as status 500. -/
theorem classify_total_default_other :
    (∀ e : String, ∃! k : Handler.RespKind, Handler.classify e = k)
    ∧ ∀ e : String,
        Handler.stringContains e "TooManyRequests (429)" = false →
        Handler.stringContains e "timeout" = false →
        Handler.classify e = Handler.RespKind.Other
          ∧ Handler.respStatus (some e) = 500 := by
  constructor
  · intro e
    exact ⟨Handler.classify e, rfl, fun k hk => hk.symm⟩
  · intro e h1 h2
    constructor
    · unfold Handler.classify
      simp [h1, h2]
    · unfold Handler.respStatus
      simp [h1, h2, Handler.statusInternalServerError]

/-- C7 witness: a concrete unmatched error is classified Other and
answered with 500. -/
theorem classify_total_default_other_witness :
    Handler.classify "connection refused" = Handler.RespKind.Other
      ∧ Handler.respStatus (some "connection refused") = 500 :=
  classify_total_default_other.2 "connection refused" (by decide) (by decide)

/-- C9: every insert issued by the handler binds an amount in [50, 249]
(a draw from [0,200) plus 50) and binds the state column to the constant
"Seattle", for every request and every value of the random draw. -/
theorem add_binds_amount_range_and_fixed_state
    (uuidRes : String × Option String) (r now : Nat) (queryErr : Option String) :
    50 ≤ (Handler.Add uuidRes r now queryErr).bound.amount
      ∧ (Handler.Add uuidRes r now queryErr).bound.amount ≤ 249
      ∧ (Handler.Add uuidRes r now queryErr).bound.state = "Seattle" := by
  refine ⟨?_, ?_, rfl⟩
  · simp [Handler.Add, Handler.addBindValues, Handler.Intn]
  · simp only [Handler.Add, Handler.addBindValues, Handler.Intn]
    omega

/-- C10: the handler discards the error produced by UUID generation: the
call behaves exactly as if generation succeeded, the insert is attempted
with the returned identifier (possibly empty), the observer is keyed by
that same identifier, and the response status depends only on the insert
outcome. -/
theorem add_ignores_uuid_error (u : String) (e : Option String) (r now : Nat)
    (queryErr : Option String) :
    Handler.Add (u, e) r now queryErr = Handler.Add (u, none) r now queryErr
      ∧ (Handler.Add (u, e) r now queryErr).bound.id = u
      ∧ (Handler.Add (u, e) r now queryErr).observer.orderID = u
      ∧ (Handler.Add (u, e) r now queryErr).status = Handler.respStatus queryErr :=
  ⟨rfl, rfl, rfl, rfl⟩

/-- Helper: every run of the attempt loop invokes the observer at least
once, and its j-th invocation carries the correlation id, attempt index
`idx + j`, and the outcome of attempt `idx + j`. -/
theorem runLoop_observer_calls (p : Option Core.PolicyConfig) (op : Core.Operation)
    (oc : Nat → Core.Outcome) (jt : Nat → Nat) :
    ∀ (fuel idx : Nat),
      0 < (Core.runLoop p op oc jt idx fuel).2.length
      ∧ ∀ (j : Nat) (h : j < (Core.runLoop p op oc jt idx fuel).2.length),
          (Core.runLoop p op oc jt idx fuel).2.get ⟨j, h⟩ =
            { correlationId := op.correlationId, attemptIndex := idx + j,
              outcome := oc (idx + j) } := by
  intro fuel
  induction fuel with
  | zero =>
    intro idx
    have hl : (Core.runLoop p op oc jt idx 0).2 =
        [{ correlationId := op.correlationId, attemptIndex := idx, outcome := oc idx }] := by
      cases hoc : oc idx with
      | success => simp [Core.runLoop, hoc]
      | failure k =>
        cases p with
        | none => simp [Core.runLoop, hoc]
        | some cfg =>
          by_cases hd : (Core.decide cfg k idx op (jt idx)).shouldRetry <;>
            simp [Core.runLoop, hoc, hd]
    refine ⟨by simp [hl], ?_⟩
    intro j h
    have hj : j = 0 := by
      have := h
      rw [hl] at this
      simpa using Nat.lt_one_iff.mp (by simpa using this)
    subst hj
    simp [hl]
  | succ f ih =>
    intro idx
    cases hoc : oc idx with
    | success =>
      have hl : (Core.runLoop p op oc jt idx (f + 1)).2 =
          [{ correlationId := op.correlationId, attemptIndex := idx, outcome := oc idx }] := by
        simp [Core.runLoop, hoc]
      refine ⟨by simp [hl], ?_⟩
      intro j h
      have hj : j = 0 := by
        rw [hl] at h
        simpa using Nat.lt_one_iff.mp (by simpa using h)
      subst hj
      simp [hl]
    | failure k =>
      cases p with
      | none =>
        have hl : (Core.runLoop none op oc jt idx (f + 1)).2 =
            [{ correlationId := op.correlationId, attemptIndex := idx, outcome := oc idx }] := by
          simp [Core.runLoop, hoc]
        refine ⟨by simp [hl], ?_⟩
        intro j h
        have hj : j = 0 := by
          rw [hl] at h
          simpa using Nat.lt_one_iff.mp (by simpa using h)
        subst hj
        simp [hl]
      | some cfg =>
        by_cases hd : (Core.decide cfg k idx op (jt idx)).shouldRetry
        · have hl : (Core.runLoop (some cfg) op oc jt idx (f + 1)).2 =
              { correlationId := op.correlationId, attemptIndex := idx, outcome := oc idx } ::
                (Core.runLoop (some cfg) op oc jt (idx + 1) f).2 := by
            conv_lhs => rw [Core.runLoop.eq_def]
            simp [hoc, hd]
          refine ⟨by simp [hl], ?_⟩
          intro j h
          cases j with
          | zero => simp [hl]
          | succ j' =>
            have h' : j' < (Core.runLoop (some cfg) op oc jt (idx + 1) f).2.length := by
              rw [hl] at h
              simpa using h
            have hget := (ih (idx + 1)).2 j' h'
            have : (Core.runLoop (some cfg) op oc jt idx (f + 1)).2.get ⟨j' + 1, h⟩ =
                (Core.runLoop (some cfg) op oc jt (idx + 1) f).2.get ⟨j', h'⟩ := by
              simp [hl]
            rw [this, hget]
            have harith : idx + 1 + j' = idx + (j' + 1) := by omega
            simp [harith]
        · have hl : (Core.runLoop (some cfg) op oc jt idx (f + 1)).2 =
              [{ correlationId := op.correlationId, attemptIndex := idx, outcome := oc idx }] := by
            simp [Core.runLoop, hoc, hd]
          refine ⟨by simp [hl], ?_⟩
          intro j h
          have hj : j = 0 := by
            rw [hl] at h
            simpa using Nat.lt_one_iff.mp (by simpa using h)
          subst hj
          simp [hl]

/-- Helper: when every attempt fails as Throttled and the loop starts at
attempt `idx` with exactly `maxRetries - idx` retries of fuel, it ends in
a Throttled terminal error with `maxRetries + 1` attempts made, having
performed `fuel + 1` attempts from `idx` on. -/
theorem runLoop_all_throttled (cfg : Core.PolicyConfig) (op : Core.Operation)
    (oc : Nat → Core.Outcome) (jt : Nat → Nat) (ra : Nat → Option Nat)
    (hoc : ∀ i, oc i = Core.Outcome.failure (Core.ErrorKind.Throttled (ra i))) :
    ∀ (fuel idx : Nat), idx + fuel = cfg.maxRetries →
      (Core.runLoop (some cfg) op oc jt idx fuel).1 =
        Core.ExecResult.err
          { kind := Core.ErrorKind.Throttled (ra cfg.maxRetries),
            attemptsMade := cfg.maxRetries + 1 }
      ∧ (Core.runLoop (some cfg) op oc jt idx fuel).2.length = fuel + 1 := by
  intro fuel
  induction fuel with
  | zero =>
    intro idx hidx
    have h0 : idx = cfg.maxRetries := by omega
    subst h0
    simp [Core.runLoop, hoc, Core.decide]
  | succ f ih =>
    intro idx hidx
    have hlt : ¬ cfg.maxRetries ≤ idx := by omega
    have hih := ih (idx + 1) (by omega)
    have hd : (Core.decide cfg (Core.ErrorKind.Throttled (ra idx)) idx op (jt idx)).shouldRetry
        = true := by
      simp [Core.decide, hlt]
    have hl : Core.runLoop (some cfg) op oc jt idx (f + 1) =
        ((Core.runLoop (some cfg) op oc jt (idx + 1) f).1,
          { correlationId := op.correlationId, attemptIndex := idx, outcome := oc idx } ::
            (Core.runLoop (some cfg) op oc jt (idx + 1) f).2) := by
      conv_lhs => rw [Core.runLoop.eq_def]
      simp [hoc idx, hd]
    rw [hl]
    exact ⟨hih.1, by simp [hih.2]⟩

/-- Helper: the backoff-with-jitter delay is a natural number cast to an
integer, hence nonnegative. -/
theorem backoff_nonneg (cfg : Core.PolicyConfig) (i j : Nat) :
    0 ≤ Core.backoff cfg i j :=
  Int.natCast_nonneg _

/-- C1: the retry policy returns shouldRetry = false once the attempt
count reaches the configured maximum regardless of ErrorKind, its delay
is always nonnegative, and a continuously Throttled operation under
`maxRetries = N` makes exactly N + 1 attempts, ending in a Throttled
terminal error with `attemptsMade = N + 1`. -/
theorem retry_cap_delay_nonneg_throttled_run :
    (∀ (cfg : Core.PolicyConfig) (k : Core.ErrorKind) (i : Nat) (op : Core.Operation)
        (j : Nat), cfg.maxRetries ≤ i → (Core.decide cfg k i op j).shouldRetry = false)
    ∧ (∀ (cfg : Core.PolicyConfig) (k : Core.ErrorKind) (i : Nat) (op : Core.Operation)
        (j : Nat), 0 ≤ (Core.decide cfg k i op j).delay)
    ∧ ∀ (cfg : Core.PolicyConfig) (op : Core.Operation) (oc : Nat → Core.Outcome)
        (jt : Nat → Nat) (ra : Nat → Option Nat),
        (∀ i, oc i = Core.Outcome.failure (Core.ErrorKind.Throttled (ra i))) →
        (Core.execute (some cfg) op oc jt).1 =
          Core.ExecResult.err
            { kind := Core.ErrorKind.Throttled (ra cfg.maxRetries),
              attemptsMade := cfg.maxRetries + 1 }
        ∧ (Core.execute (some cfg) op oc jt).2.length = cfg.maxRetries + 1 := by
  refine ⟨?_, ?_, ?_⟩
  · intro cfg k i op j h
    simp [Core.decide, h]
  · intro cfg k i op j
    unfold Core.decide
    by_cases h : cfg.maxRetries ≤ i
    · simp [h]
    · cases k with
      | Throttled ra =>
        cases ra with
        | none => simpa [h] using backoff_nonneg cfg i j
        | some d => simp [h]
      | Timeout =>
        by_cases hi : op.idempotent
        · simpa [h, hi] using backoff_nonneg cfg i j
        · simp [h, hi]
      | Unavailable => simpa [h] using backoff_nonneg cfg i j
      | Other => simp [h]
  · intro cfg op oc jt ra hoc
    exact runLoop_all_throttled cfg op oc jt ra hoc cfg.maxRetries 0 (by omega)

/-- C1 witness: with `maxRetries = 2`, the policy refuses a retry at
attempt 5, its delay there is nonnegative, and a run in which every
attempt is Throttled performs exactly 3 attempts. -/
theorem retry_cap_delay_nonneg_throttled_run_witness :
    (Core.decide ⟨2, 1, 8⟩ Core.ErrorKind.Timeout 5 ⟨"op1", true⟩ 0).shouldRetry = false
    ∧ 0 ≤ (Core.decide ⟨2, 1, 8⟩ Core.ErrorKind.Timeout 5 ⟨"op1", true⟩ 0).delay
    ∧ (Core.execute (some ⟨2, 1, 8⟩) ⟨"op1", true⟩
        (fun _ => Core.Outcome.failure (Core.ErrorKind.Throttled none))
        (fun _ => 0)).2.length = 3 :=
  ⟨retry_cap_delay_nonneg_throttled_run.1 ⟨2, 1, 8⟩ Core.ErrorKind.Timeout 5 ⟨"op1", true⟩ 0
      (by decide),
   retry_cap_delay_nonneg_throttled_run.2.1 ⟨2, 1, 8⟩ Core.ErrorKind.Timeout 5 ⟨"op1", true⟩ 0,
   (retry_cap_delay_nonneg_throttled_run.2.2 ⟨2, 1, 8⟩ ⟨"op1", true⟩
      (fun _ => Core.Outcome.failure (Core.ErrorKind.Throttled none)) (fun _ => 0)
      (fun _ => none) (fun _ => rfl)).2⟩

/-- C4: with the retry feature flag disabled no retry policy is installed
(src/main.go lines 67-78), and an `execute` without a policy performs
exactly one attempt, surfacing any failure — Throttled included —
immediately, with no retry decision consulted. -/
theorem disabled_flag_single_attempt :
    (∀ e : Option Int, Handler.initRetryConfig false e = none)
    ∧ ∀ (op : Core.Operation) (oc : Nat → Core.Outcome) (jt : Nat → Nat)
        (k : Core.ErrorKind),
        oc 0 = Core.Outcome.failure k →
        Core.execute none op oc jt =
          (Core.ExecResult.err { kind := k, attemptsMade := 1 },
            [{ correlationId := op.correlationId, attemptIndex := 0,
               outcome := Core.Outcome.failure k }]) := by
  refine ⟨fun e => rfl, ?_⟩
  intro op oc jt k h
  simp [Core.execute, Core.runLoop, h]

/-- C4 witness: a first attempt failing as Throttled with the policy
absent ends after exactly one attempt. -/
theorem disabled_flag_single_attempt_witness :
    Core.execute none ⟨"op2", true⟩
        (fun _ => Core.Outcome.failure (Core.ErrorKind.Throttled none)) (fun _ => 0) =
      (Core.ExecResult.err { kind := Core.ErrorKind.Throttled none, attemptsMade := 1 },
        [{ correlationId := "op2", attemptIndex := 0,
           outcome := Core.Outcome.failure (Core.ErrorKind.Throttled none) }]) :=
  disabled_flag_single_attempt.2 ⟨"op2", true⟩
    (fun _ => Core.Outcome.failure (Core.ErrorKind.Throttled none)) (fun _ => 0)
    (Core.ErrorKind.Throttled none) rfl

/-- C5: when the retry policy is enabled and `MAX_RETRIES` is not set,
the policy is constructed with maxRetries = 5; with an explicitly
configured non-negative value it is constructed with that value
(src/main.go lines 67-78). -/
theorem max_retries_default_five :
    Handler.initRetryConfig true none = some 5
    ∧ ∀ n : Int, 0 ≤ n → Handler.initRetryConfig true (some n) = some n :=
  ⟨rfl, fun n _ => rfl⟩

/-- C5 witness: an explicitly configured value of 7 is used as is. -/
theorem max_retries_default_five_witness :
    Handler.initRetryConfig true (some 7) = some 7 :=
  max_retries_default_five.2 7 (by norm_num)

/-- C8: on a failed attempt the observer writes the error line built from
the correlation identifier and the error detail, and appends the retry
note exactly when the attempt index is greater than 0. -/
theorem observer_failure_log_lines (l : Handler.OrderInsertErrorLogger)
    (oq : Handler.ObservedQuery) (e : String) (h : oq.err = some e) :
    Handler.ObserveQuery l oq =
      Handler.errLine l.orderID e ::
        (if 0 < oq.attempt then [Handler.retryNote l.orderID oq.attempt] else [])
    ∧ ((Handler.ObserveQuery l oq).length = 2 ↔ 0 < oq.attempt) := by
  unfold Handler.ObserveQuery
  rw [h]
  by_cases ha : 0 < oq.attempt <;> simp [ha]

/-- C8 witness: a failure on attempt 2 yields the error line followed by
the retry note. -/
theorem observer_failure_log_lines_witness :
    Handler.ObserveQuery ⟨"o1"⟩ ⟨some "boom", 2⟩ =
      Handler.errLine "o1" "boom" ::
        (if 0 < (2 : Nat) then [Handler.retryNote "o1" 2] else [])
    ∧ ((Handler.ObserveQuery ⟨"o1"⟩ ⟨some "boom", 2⟩).length = 2 ↔ 0 < (2 : Nat)) :=
  observer_failure_log_lines ⟨"o1"⟩ ⟨some "boom", 2⟩ "boom" rfl

/-- C3 counterexample: the observer does not emit a log record for every
attempt — a successful attempt emits no record at all, and a retried
failing attempt emits two. -/
theorem observer_one_record_per_attempt_false :
    Handler.ObserveQuery ⟨"o1"⟩ ⟨none, 0⟩ = []
    ∧ (Handler.ObserveQuery ⟨"o1"⟩ ⟨some "err42", 1⟩).length = 2 :=
  ⟨rfl, rfl⟩

/-- C3 (amended): the Attempt Observer is invoked exactly once per
attempt — the i-th invocation carries the correlation id, attempt index
i, and the outcome of attempt i — but it emits log records only for
failing attempts: one error line, plus a retry note when the attempt
index is positive; a successful attempt emits no record. -/
theorem observer_invocation_and_records :
    (∀ (l : Handler.OrderInsertErrorLogger) (oq : Handler.ObservedQuery),
        oq.err = none → Handler.ObserveQuery l oq = [])
    ∧ (∀ (l : Handler.OrderInsertErrorLogger) (oq : Handler.ObservedQuery) (e : String),
        oq.err = some e →
        (Handler.ObserveQuery l oq).length = if 0 < oq.attempt then 2 else 1)
    ∧ ∀ (p : Option Core.PolicyConfig) (op : Core.Operation)
        (oc : Nat → Core.Outcome) (jt : Nat → Nat),
        0 < (Core.execute p op oc jt).2.length
        ∧ ∀ (i : Nat) (h : i < (Core.execute p op oc jt).2.length),
            (Core.execute p op oc jt).2.get ⟨i, h⟩ =
              { correlationId := op.correlationId, attemptIndex := i, outcome := oc i } := by
  refine ⟨?_, ?_, ?_⟩
  · intro l oq h
    unfold Handler.ObserveQuery
    rw [h]
  · intro l oq e h
    unfold Handler.ObserveQuery
    rw [h]
    by_cases ha : 0 < oq.attempt <;> simp [ha]
  · intro p op oc jt
    have hcalls := runLoop_observer_calls p op oc jt
      (match p with | none => 0 | some cfg => cfg.maxRetries) 0
    refine ⟨hcalls.1, ?_⟩
    intro i h
    have := hcalls.2 i h
    simpa using this

/-- C3 (amended) witness: a success-only run invokes the observer once
with index 0 and the success outcome, while the observer emits no record
on success and one record on a first failure. -/
theorem observer_invocation_and_records_witness :
    Handler.ObserveQuery ⟨"o2"⟩ ⟨none, 1⟩ = []
    ∧ (Handler.ObserveQuery ⟨"o2"⟩ ⟨some "boom", 0⟩).length
        = (if 0 < (0 : Nat) then 2 else 1)
    ∧ (Core.execute none ⟨"op3", true⟩ (fun _ => Core.Outcome.success)
        (fun _ => 0)).2.get ⟨0, by decide⟩ =
      { correlationId := "op3", attemptIndex := 0, outcome := Core.Outcome.success } :=
  ⟨observer_invocation_and_records.1 ⟨"o2"⟩ ⟨none, 1⟩ rfl,
   observer_invocation_and_records.2.1 ⟨"o2"⟩ ⟨some "boom", 0⟩ "boom" rfl,
   (observer_invocation_and_records.2.2 none ⟨"op3", true⟩
      (fun _ => Core.Outcome.success) (fun _ => 0)).2 0 (by decide)⟩
